import Mathlib

/-!
Shallow embedding of the vibe-ticket storage layer and the CLI handlers
that the verified properties speak about.

The domain types (`Status`, `Priority`, `Ticket`, `Task`) are translated
from `src/core/status.rs` and `src/core/builders.rs`; identifiers
(`TicketId`, 128-bit opaque UUID wrappers compared by value) are modelled
as `Nat`.  The repository layer (`save`/`load`/`load_all`/`delete`/
`exists`/`find`/`count` and the active-marker operations) is translated
from `src/storage/repository.rs`.  The concrete `FileStorage` primitives
(`save_ticket`, `load_ticket`, `load_all_tickets`, `delete_ticket`,
`add_active_ticket`, `remove_active_ticket`, `get_all_active_tickets`,
`clear_active_ticket`, `ticket_exists_with_slug`) live in
`src/storage/file.rs`, which is not part of the provided sources; they
are modelled from the specification (sections 4.2 and 8) and marked as
such below.  Timestamps are modelled as `Nat`, JSON metadata values as
`String`.
-/

/-- Ticket status, translated from `src/core/status.rs` (`enum Status`). -/
inductive Status where
  | Todo
  | Doing
  | Done
  | Blocked
  | Review
deriving DecidableEq, Repr

/-- Translated from `Status::is_active` in `src/core/status.rs`. -/
def Status.is_active : Status → Bool
  | .Doing => true
  | .Review => true
  | _ => false

/-- Translated from `Status::is_completed` in `src/core/status.rs`. -/
def Status.is_completed : Status → Bool
  | .Done => true
  | _ => false

/-- Translated from `Status::can_start` in `src/core/status.rs`:
whether the status allows starting work (`Todo` or `Blocked`). -/
def Status.can_start : Status → Bool
  | .Todo => true
  | .Blocked => true
  | _ => false

/-- Ticket priority, from the data model (section 3 of the spec):
one of Low, Medium, High, Critical.  The Rust enum definition is in
`src/core/priority.rs`, absent from the provided sources. -/
inductive Priority where
  | Low
  | Medium
  | High
  | Critical
deriving DecidableEq, Repr

/-- Task record (named `Task` in the source; renamed here because Lean
reserves `Task`), translated from the `Task` fields used by
`src/core/builders.rs` (`TaskBuilder::build`). -/
structure TicketTask where
  id : Nat
  title : String
  completed : Bool
  created_at : Nat
  completed_at : Option Nat
deriving DecidableEq, Repr

/-- Ticket record, translated from the `Ticket` fields used by
`src/core/builders.rs` (`TicketBuilder::build`).  `metadata` is the
string-keyed map of JSON values, modelled as an association list. -/
structure Ticket where
  id : Nat
  slug : String
  title : String
  description : String
  priority : Priority
  status : Status
  tags : List String
  created_at : Nat
  started_at : Option Nat
  closed_at : Option Nat
  assignee : Option String
  tasks : List TicketTask
  metadata : List (String × String)
deriving DecidableEq, Repr

/-- Error type, translated from `src/error.rs` (`enum VibeTicketError`).
Only the constructors reachable from the embedded operations are kept;
the process-level wrappers (`Io`, `Git`, `Config`, ...) represent
filesystem and subprocess failures that a pure state model cannot
produce. -/
inductive VibeTicketError where
  | Yaml (msg : String)
  | TicketNotFound (id : String)
  | InvalidStatus (status : String)
  | InvalidPriority (priority : String)
  | ProjectNotInitialized
  | NoActiveTicket
  | InvalidSlug (slug : String)
  | DuplicateTicket (slug : String)
  | Custom (msg : String)
deriving DecidableEq, Repr

/-- A record file on disk: either a parseable ticket or corrupt content
(the "corrupt data" case of spec section 4.2: content that cannot be
parsed into the target type). -/
inductive TicketFile where
  | good (t : Ticket)
  | corrupt (content : String)
deriving DecidableEq, Repr

/-- Storage-root state: one file per ticket keyed by its identifier
(spec section 4.2), the legacy single-pointer active-ticket file, and
the multi-entry active-ticket list (spec sections 3 and 4.2). -/
structure StorageState where
  tickets : List (Nat × TicketFile)
  legacyActive : Option Nat
  activeList : List Nat
deriving DecidableEq, Repr

/-- Looks up the record file stored under an identifier. -/
def getFile : List (Nat × TicketFile) → Nat → Option TicketFile
  | [], _ => none
  | (k, f) :: rest, id => if k = id then some f else getFile rest id

/-- Writes a record file under an identifier, overwriting any existing
file at that key (spec section 4.2: `save` overwrites). -/
def putFile : List (Nat × TicketFile) → Nat → TicketFile → List (Nat × TicketFile)
  | [], id, f => [(id, f)]
  | (k, g) :: rest, id, f =>
    if k = id then (id, f) :: rest else (k, g) :: putFile rest id f

/-- Removes the record file stored under an identifier. -/
def removeFile : List (Nat × TicketFile) → Nat → List (Nat × TicketFile)
  | [], _ => []
  | (k, g) :: rest, id =>
    if k = id then removeFile rest id else (k, g) :: removeFile rest id

/-- Modelled from the spec: `FileStorage::save_ticket`
(`src/storage/file.rs` is absent from the sources).  Spec section 4.2:
serializes the record and writes it to the path derived from the
record's identifier, overwriting any existing file. -/
def save_ticket (s : StorageState) (t : Ticket) : StorageState :=
  { s with tickets := putFile s.tickets t.id (.good t) }

/-- Modelled from the spec: `FileStorage::load_ticket`
(`src/storage/file.rs` is absent from the sources).  Spec section 4.2:
fails with "not found" if the file is absent, and with a "corrupt data"
(YAML parse) error if the content cannot be parsed. -/
def load_ticket (s : StorageState) (id : Nat) : Except VibeTicketError Ticket :=
  match getFile s.tickets id with
  | none => .error (.TicketNotFound (toString id))
  | some (.good t) => .ok t
  | some (.corrupt c) => .error (.Yaml c)

/-- Parses every record file in storage order, propagating the first
corrupt-file error (spec section 4.2: the failure policy of `load_all`
is "propagate the error"). -/
def parseFiles : List (Nat × TicketFile) → Except VibeTicketError (List Ticket)
  | [] => .ok []
  | (_, .corrupt c) :: _ => .error (.Yaml c)
  | (_, .good t) :: rest =>
    match parseFiles rest with
    | .ok ts => .ok (t :: ts)
    | .error e => .error e

/-- Modelled from the spec: `FileStorage::load_all_tickets`
(`src/storage/file.rs` is absent from the sources).  Spec section 4.2:
enumerates every record file and deserializes each, propagating a
corrupt file's error. -/
def load_all_tickets (s : StorageState) : Except VibeTicketError (List Ticket) :=
  parseFiles s.tickets

/-- Modelled from the spec: `FileStorage::delete_ticket`
(`src/storage/file.rs` is absent from the sources).  Spec section 8
item 3: `delete` on an identifier that was never saved reports
"not found". -/
def delete_ticket (s : StorageState) (id : Nat) : Except VibeTicketError StorageState :=
  match getFile s.tickets id with
  | none => .error (.TicketNotFound (toString id))
  | some _ => .ok { s with tickets := removeFile s.tickets id }

/-- Modelled from the spec: `FileStorage::ticket_exists_with_slug`
(`src/storage/file.rs` is absent from the sources).  Used by the `new`
handler to enforce slug uniqueness at creation time (spec section 3). -/
def ticket_exists_with_slug (s : StorageState) (slug : String) : Bool :=
  s.tickets.any (fun kf =>
    match kf.2 with
    | .good t => t.slug = slug
    | .corrupt _ => false)

/-- Modelled from the spec: `FileStorage::add_active_ticket`
(`src/storage/file.rs` is absent from the sources).  Spec sections 4.2
and 8 item 4: the multi-entry active list records each active ticket
exactly once, so adding an identifier removes any prior occurrence. -/
def add_active_ticket (s : StorageState) (id : Nat) : StorageState :=
  { s with activeList := id :: s.activeList.filter (fun x => x != id) }

/-- Modelled from the spec: `FileStorage::remove_active_ticket`
(`src/storage/file.rs` is absent from the sources). -/
def remove_active_ticket (s : StorageState) (id : Nat) : StorageState :=
  { s with activeList := s.activeList.filter (fun x => x != id) }

/-- Modelled from the spec: `FileStorage::get_all_active_tickets`
(`src/storage/file.rs` is absent from the sources). -/
def get_all_active_tickets (s : StorageState) : List Nat :=
  s.activeList

/-- Modelled from the spec: `FileStorage::clear_active_ticket`
(`src/storage/file.rs` is absent from the sources): clears the legacy
single-pointer active-ticket file. -/
def clear_active_ticket (s : StorageState) : StorageState :=
  { s with legacyActive := none }

/-- Translated from `TicketRepository::save` for `FileStorage` in
`src/storage/repository.rs`. -/
def repoSave (s : StorageState) (t : Ticket) : StorageState :=
  save_ticket s t

/-- Translated from `TicketRepository::load` for `FileStorage` in
`src/storage/repository.rs`. -/
def repoLoad (s : StorageState) (id : Nat) : Except VibeTicketError Ticket :=
  load_ticket s id

/-- Translated from `TicketRepository::load_all` for `FileStorage` in
`src/storage/repository.rs`. -/
def repoLoadAll (s : StorageState) : Except VibeTicketError (List Ticket) :=
  load_all_tickets s

/-- Translated from `TicketRepository::delete` for `FileStorage` in
`src/storage/repository.rs`. -/
def repoDelete (s : StorageState) (id : Nat) : Except VibeTicketError StorageState :=
  delete_ticket s id

/-- Translated from `TicketRepository::exists` for `FileStorage` in
`src/storage/repository.rs`: `Ok(true)` when `load` succeeds,
`Ok(false)` when it fails with `TicketNotFound`, the error otherwise. -/
def existsById (s : StorageState) (id : Nat) : Except VibeTicketError Bool :=
  match load_ticket s id with
  | .ok _ => .ok true
  | .error (.TicketNotFound _) => .ok false
  | .error e => .error e

/-- Translated from `TicketRepository::find` for `FileStorage` in
`src/storage/repository.rs`: load all tickets, keep those matching the
predicate. -/
def repoFind (s : StorageState) (p : Ticket → Bool) : Except VibeTicketError (List Ticket) :=
  match load_all_tickets s with
  | .ok ts => .ok (ts.filter p)
  | .error e => .error e

/-- Translated from `TicketRepository::count` for `FileStorage` in
`src/storage/repository.rs`: load all tickets, count those matching the
predicate. -/
def repoCount (s : StorageState) (p : Ticket → Bool) : Except VibeTicketError Nat :=
  match load_all_tickets s with
  | .ok ts => .ok (ts.countP p)
  | .error e => .error e

/-- Translated from `ActiveTicketRepository::clear_active` for
`FileStorage` in `src/storage/repository.rs`: clear the legacy format,
then remove every identifier returned by `get_all_active_tickets`. -/
def clear_active (s : StorageState) : StorageState :=
  let s1 := clear_active_ticket s
  (get_all_active_tickets s1).foldl (fun st id => remove_active_ticket st id) s1

/-- Translated from `ActiveTicketRepository::set_active` for
`FileStorage` in `src/storage/repository.rs`: clear all active tickets,
then add this one. -/
def set_active (s : StorageState) (id : Nat) : StorageState :=
  add_active_ticket (clear_active s) id

/-- Translated from `ActiveTicketRepository::get_active` for
`FileStorage` in `src/storage/repository.rs`: the first active ticket,
for backward compatibility. -/
def get_active (s : StorageState) : Option Nat :=
  (get_all_active_tickets s).head?

/-- Translated from `ActiveTicketRepository::add_active` for
`FileStorage` in `src/storage/repository.rs`. -/
def add_active (s : StorageState) (id : Nat) : StorageState :=
  add_active_ticket s id

/-- Translated from `ActiveTicketRepository::remove_active` for
`FileStorage` in `src/storage/repository.rs`. -/
def remove_active (s : StorageState) (id : Nat) : StorageState :=
  remove_active_ticket s id

/-- Translated from `ActiveTicketRepository::get_all_active` for
`FileStorage` in `src/storage/repository.rs`. -/
def get_all_active (s : StorageState) : List Nat :=
  get_all_active_tickets s

/-- Storing a file and reading the same key back yields that file. -/
theorem getFile_putFile_self (fs : List (Nat × TicketFile)) (id : Nat) (f : TicketFile) :
    getFile (putFile fs id f) id = some f := by
  induction fs with
  | nil => simp [putFile, getFile]
  | cons kv rest ih =>
    obtain ⟨k, g⟩ := kv
    by_cases h : k = id
    · simp [putFile, getFile, h]
    · simp [putFile, getFile, h, ih]

/-- Saving a ticket and loading its identifier returns the ticket. -/
theorem load_save_self (s : StorageState) (t : Ticket) :
    load_ticket (save_ticket s t) t.id = .ok t := by
  simp [load_ticket, save_ticket, getFile_putFile_self]

/-- C1: for every storage state and every ticket value, `save` followed
by `load` on the ticket's identifier returns the ticket unchanged, equal
in all fields (`Ticket` equality is field-wise structural equality). -/
theorem save_load_roundtrip (s : StorageState) (t : Ticket) :
    repoLoad (repoSave s t) t.id = .ok t := by
  simpa [repoLoad, repoSave] using load_save_self s t

/-- Removing every identifier of a covering list empties the active list. -/
theorem foldl_remove_active_empty (l : List Nat) :
    ∀ st : StorageState, (∀ x ∈ st.activeList, x ∈ l) →
      (l.foldl (fun st id => remove_active_ticket st id) st).activeList = [] := by
  induction l with
  | nil =>
    intro st h
    simp only [List.foldl_nil]
    exact List.eq_nil_iff_forall_not_mem.mpr (fun x hx => (List.not_mem_nil x) (h x hx))
  | cons a l ih =>
    intro st h
    simp only [List.foldl_cons]
    apply ih
    intro x hx
    simp only [remove_active_ticket, List.mem_filter, bne_iff_ne, ne_eq,
      decide_eq_true_eq] at hx
    rcases List.mem_cons.mp (h x hx.1) with h1 | h1
    · exact absurd h1 hx.2
    · exact h1

/-- The repository-level `clear_active` empties the multi-entry active
list. -/
theorem clear_active_activeList (s : StorageState) :
    (clear_active s).activeList = [] := by
  apply foldl_remove_active_empty
  intro x hx
  exact hx

/-- C2: from any storage state, `get_active` after `set_active id`
returns `some id`; `get_active` after `clear_active` returns `none`; and
after `add_active a` then `add_active b` with `a ≠ b`, `get_all_active`
contains each of `a` and `b` exactly once. -/
theorem active_marker_consistency (s : StorageState) (id a b : Nat) :
    get_active (set_active s id) = some id ∧
    get_active (clear_active s) = none ∧
    (a ≠ b →
      (get_all_active (add_active (add_active s a) b)).count a = 1 ∧
      (get_all_active (add_active (add_active s a) b)).count b = 1) := by
  refine ⟨?_, ?_, ?_⟩
  · simp [get_active, set_active, add_active_ticket, get_all_active_tickets,
      clear_active_activeList]
  · simp [get_active, get_all_active_tickets, clear_active_activeList]
  · intro hab
    have hb : (a != b) = true := by simpa [bne_iff_ne] using hab
    simp only [get_all_active, get_all_active_tickets, add_active, add_active_ticket,
      List.filter_cons, hb, if_pos]
    constructor
    · rw [List.count_cons_of_ne hab, List.count_cons_self]
      have hz : a ∉ s.activeList.filter (fun x => x != b && x != a) := by
        intro hmem
        simp [List.mem_filter] at hmem
      simp [List.count_eq_zero.mpr hz]
    · rw [List.count_cons_self]
      rw [List.count_cons_of_ne (Ne.symm hab)]
      have hz : b ∉ s.activeList.filter (fun x => x != b && x != a) := by
        intro hmem
        simp [List.mem_filter] at hmem
      simp [List.count_eq_zero.mpr hz]

/-- Witness for C2 at a concrete state and concrete identifiers. -/
theorem active_marker_consistency_witness :
    (2 : Nat) ≠ 3 ∧
    (get_all_active (add_active (add_active ⟨[], some 7, [3, 2, 9]⟩ 2) 3)).count 2 = 1 ∧
    (get_all_active (add_active (add_active ⟨[], some 7, [3, 2, 9]⟩ 2) 3)).count 3 = 1 :=
  ⟨by decide, (active_marker_consistency ⟨[], some 7, [3, 2, 9]⟩ 5 2 3).2.2 (by decide)⟩

/-- C3: for an identifier with no record file in storage ("never
saved"), `load` and `delete` fail with the ticket-not-found error and
`exists` returns `Ok(false)`; in particular none of them reports a
corrupt-data (`Yaml`) error. -/
theorem never_saved_not_found (s : StorageState) (id : Nat)
    (h : getFile s.tickets id = none) :
    repoLoad s id = .error (.TicketNotFound (toString id)) ∧
    repoDelete s id = .error (.TicketNotFound (toString id)) ∧
    existsById s id = .ok false := by
  refine ⟨?_, ?_, ?_⟩ <;>
    simp [repoLoad, repoDelete, existsById, load_ticket, delete_ticket, h]

/-- Witness for C3: a storage state holding a good record under key 1
and a corrupt record under key 2; identifier 3 was never saved. -/
theorem never_saved_not_found_witness :
    getFile (StorageState.mk
      [(1, .good ⟨1, "a", "A", "", .Low, .Todo, [], 0, none, none, none, [], []⟩),
       (2, .corrupt "garbage")] none []).tickets 3 = none ∧
    repoLoad (StorageState.mk
      [(1, .good ⟨1, "a", "A", "", .Low, .Todo, [], 0, none, none, none, [], []⟩),
       (2, .corrupt "garbage")] none []) 3 = .error (.TicketNotFound (toString (3 : Nat))) ∧
    repoDelete (StorageState.mk
      [(1, .good ⟨1, "a", "A", "", .Low, .Todo, [], 0, none, none, none, [], []⟩),
       (2, .corrupt "garbage")] none []) 3 = .error (.TicketNotFound (toString (3 : Nat))) ∧
    existsById (StorageState.mk
      [(1, .good ⟨1, "a", "A", "", .Low, .Todo, [], 0, none, none, none, [], []⟩),
       (2, .corrupt "garbage")] none []) 3 = .ok false := by
  refine ⟨by rfl, ?_⟩
  have h := never_saved_not_found (StorageState.mk
      [(1, .good ⟨1, "a", "A", "", .Low, .Todo, [], 0, none, none, none, [], []⟩),
       (2, .corrupt "garbage")] none []) 3 (by rfl)
  exact h

/-- C7: whenever `load_all` succeeds with a list of tickets, `find p`
returns exactly the sublist of those tickets satisfying `p` (same
elements, in `load_all` order) and `count p` returns its length. -/
theorem find_count_subset (s : StorageState) (p : Ticket → Bool)
    (ts : List Ticket) (h : repoLoadAll s = .ok ts) :
    repoFind s p = .ok (ts.filter p) ∧
    repoCount s p = .ok ((ts.filter p).length) := by
  have h' : load_all_tickets s = .ok ts := h
  refine ⟨?_, ?_⟩ <;>
    simp [repoFind, repoCount, h', List.countP_eq_length_filter]

/-- Witness for C7: a two-ticket store and the predicate selecting
`Todo` tickets. -/
theorem find_count_subset_witness :
    repoLoadAll (StorageState.mk
      [(1, .good ⟨1, "a", "A", "", .Low, .Todo, [], 0, none, none, none, [], []⟩),
       (2, .good ⟨2, "b", "B", "", .High, .Done, [], 0, none, none, none, [], []⟩)]
      none []) = .ok
      [⟨1, "a", "A", "", .Low, .Todo, [], 0, none, none, none, [], []⟩,
       ⟨2, "b", "B", "", .High, .Done, [], 0, none, none, none, [], []⟩] ∧
    repoFind (StorageState.mk
      [(1, .good ⟨1, "a", "A", "", .Low, .Todo, [], 0, none, none, none, [], []⟩),
       (2, .good ⟨2, "b", "B", "", .High, .Done, [], 0, none, none, none, [], []⟩)]
      none []) (fun t => t.status == .Todo) = .ok
      [⟨1, "a", "A", "", .Low, .Todo, [], 0, none, none, none, [], []⟩] ∧
    repoCount (StorageState.mk
      [(1, .good ⟨1, "a", "A", "", .Low, .Todo, [], 0, none, none, none, [], []⟩),
       (2, .good ⟨2, "b", "B", "", .High, .Done, [], 0, none, none, none, [], []⟩)]
      none []) (fun t => t.status == .Todo) = .ok 1 := by
  refine ⟨by rfl, ?_⟩
  have h := find_count_subset (StorageState.mk
      [(1, .good ⟨1, "a", "A", "", .Low, .Todo, [], 0, none, none, none, [], []⟩),
       (2, .good ⟨2, "b", "B", "", .High, .Done, [], 0, none, none, none, [], []⟩)]
      none []) (fun t => t.status == .Todo)
      [⟨1, "a", "A", "", .Low, .Todo, [], 0, none, none, none, [], []⟩,
       ⟨2, "b", "B", "", .High, .Done, [], 0, none, none, none, [], []⟩] (by rfl)
  simpa using h

/-- Checks whether a character list starts with a hyphen; translates
`slug.starts_with('-')` in `validate_slug` (`src/cli/handlers/mod.rs`). -/
def startsWithHyphen (cs : List Char) : Bool :=
  cs.head? == some '-'

/-- Checks whether a character list ends with a hyphen; translates
`slug.ends_with('-')` in `validate_slug` (`src/cli/handlers/mod.rs`). -/
def endsWithHyphen (cs : List Char) : Bool :=
  cs.getLast? == some '-'

/-- Checks for two consecutive hyphens; translates the substring check
`slug.contains("--")` in `validate_slug` (`src/cli/handlers/mod.rs`). -/
def hasDoubleHyphen : List Char → Bool
  | c1 :: c2 :: rest => (c1 == '-' && c2 == '-') || hasDoubleHyphen (c2 :: rest)
  | _ => false

/-- Translated from `validate_slug` in `src/cli/handlers/mod.rs`: an
empty slug is rejected; otherwise the slug is rejected when it holds a
character outside ASCII lowercase letters, ASCII digits and hyphens, or
starts or ends with a hyphen, or contains `--`; the rejection error is
always `InvalidSlug`. -/
def validate_slug (slug : String) : Except VibeTicketError Unit :=
  if slug.toList.isEmpty then .error (.InvalidSlug slug)
  else
    let cs := slug.toList
    let valid := cs.all (fun c => c.isLower || c.isDigit || c == '-')
    if !valid || startsWithHyphen cs || endsWithHyphen cs || hasDoubleHyphen cs then
      .error (.InvalidSlug slug)
    else .ok ()

/-- Translated from `parse_tags` in `src/cli/handlers/mod.rs`: split on
commas, trim each piece, drop empty pieces. -/
def parse_tags (tagsStr : String) : List String :=
  ((tagsStr.splitOn ",").map String.trim).filter (fun s => s ≠ "")

/-- Capitalizes the first character of a word; translates the title
derivation in `handle_new_command` (`src/cli/handlers/new.rs`). -/
def capitalizeWord (w : String) : String :=
  match w.toList with
  | [] => ""
  | c :: rest => String.mk (c.toUpper :: rest)

/-- Whitespace trimming over the character list; models `str::trim` as
used by `handle_new_command` (`String.trim` itself is not reducible in
the kernel, so the same computation is spelled out structurally). -/
def strTrim (s : String) : String :=
  String.mk (((s.toList.dropWhile Char.isWhitespace).reverse.dropWhile
    Char.isWhitespace).reverse)

/-- Character-wise lowercasing; models `str::to_lowercase` for the
ASCII priority names. -/
def strLower (s : String) : String :=
  String.mk (s.toList.map Char.toLower)

/-- Modelled from the spec: `Priority::try_from(&str)`
(`src/core/priority.rs` is absent from the sources).  Parses the four
priority names of the data model (spec section 3), case-insensitively. -/
def priorityTryFrom (p : String) : Option Priority :=
  match strLower p with
  | "low" => some .Low
  | "medium" => some .Medium
  | "high" => some .High
  | "critical" => some .Critical
  | _ => none

/-- Inserts a key/value pair into the metadata map, replacing any entry
with the same key (`HashMap::insert` semantics). -/
def insertMeta : List (String × String) → String → String → List (String × String)
  | [], k, v => [(k, v)]
  | (k1, v1) :: rest, k, v =>
    if k1 = k then (k, v) :: rest else (k1, v1) :: insertMeta rest k v

/-- Modelled from the spec: `Ticket::new(slug, title)`
(`src/core/ticket.rs` is absent from the sources).  Spec section 3: a
fresh random identifier, the given slug and title, default status
`Todo`, `created_at` set at construction, everything else empty. -/
def Ticket.new (freshId : Nat) (slug : String) (title : String) (now : Nat) : Ticket :=
  { id := freshId, slug := slug, title := title, description := "",
    priority := .Medium, status := .Todo, tags := [], created_at := now,
    started_at := none, closed_at := none, assignee := none, tasks := [],
    metadata := [] }

/-- Modelled from the spec: `Ticket::start` (`src/core/ticket.rs` is
absent from the sources).  Spec section 4.4: "start" moves the status to
`Doing` and stamps `started_at`. -/
def ticketStart (t : Ticket) (now : Nat) : Ticket :=
  { t with status := .Doing, started_at := some now }

/-- Translated from `handle_work_on_command` in
`src/cli/handlers/work_on.rs`, restricted to its effect on the storage
state.  The ticket is loaded; a `Done` ticket produces a warning and an
early `Ok` return with no write; otherwise, when the status is not
already `Doing`, the ticket is saved with status `Doing` and
`started_at` stamped, and in every non-`Done` case the legacy
`active_ticket` pointer file is written with the ticket's id.  Project
discovery, the interactive ticket picker, worktree creation and all
formatter output are process-local I/O with no effect on the storage
state and are not modelled; the ticket identifier is taken already
parsed. -/
def handle_work_on (s : StorageState) (id : Nat) (now : Nat) :
    StorageState × Except VibeTicketError Unit :=
  match load_ticket s id with
  | .error e => (s, .error e)
  | .ok t =>
    if t.status = .Done then (s, .ok ())
    else
      let s1 := if t.status ≠ .Doing then
          save_ticket s { t with status := .Doing, started_at := some now }
        else s
      ({ s1 with legacyActive := some t.id }, .ok ())

/-- Translated from `handle_finish_command` in
`src/cli/handlers/finish.rs`, restricted to its effect on the storage
state.  The ticket is loaded; an already-`Done` ticket produces an
early `Ok` return with no write; otherwise incomplete tasks may be
updated through the interactive prompt (abstracted as `taskUpdate`,
which is exactly the freedom `handle_incomplete_tasks` has: it only
rewrites the `tasks` field), the status is set to `Done`, `closed_at`
is stamped, the closing message is inserted into the metadata, the
ticket is saved, and the legacy `active_ticket` pointer file is
removed.  Worktree cleanup and formatter output are process-local I/O
with no effect on the storage state and are not modelled. -/
def handle_finish (s : StorageState) (id : Nat) (now : Nat) (msg : String)
    (taskUpdate : List TicketTask → List TicketTask) :
    StorageState × Except VibeTicketError Unit :=
  match load_ticket s id with
  | .error e => (s, .error e)
  | .ok t =>
    if t.status = .Done then (s, .ok ())
    else
      let t1 := if t.tasks.any (fun tk => !tk.completed) then
          { t with tasks := taskUpdate t.tasks }
        else t
      let t2 := { t1 with
                  status := .Done
                  closed_at := some now
                  metadata := insertMeta t1.metadata "closing_message" msg }
      let s1 := save_ticket s t2
      ({ s1 with legacyActive := none }, .ok ())

/-- Translated from `handle_new_command` in `src/cli/handlers/new.rs`,
restricted to its effect on the storage state.  The base slug is
trimmed and validated, prefixed with the timestamp, checked for
duplication (`ticket_exists_with_slug`), the priority string and the
tags are parsed, the title is derived from the base slug when not
given, the ticket is built and saved, and with `start` set it is
started, saved again and made active.  Project discovery and formatter
output are not modelled; the fresh random identifier and the timestamps
are taken as arguments. -/
def handle_new (s : StorageState) (slugArg : String) (stamp : String)
    (title? : Option String) (description? : Option String)
    (priorityStr : String) (tags? : Option String) (start : Bool)
    (freshId : Nat) (now : Nat) :
    StorageState × Except VibeTicketError Unit :=
  let base := strTrim slugArg
  match validate_slug base with
  | .error e => (s, .error e)
  | .ok _ =>
    let slug := stamp ++ "-" ++ base
    if ticket_exists_with_slug s slug then
      (s, .error (.DuplicateTicket slug))
    else
      match priorityTryFrom priorityStr with
      | none => (s, .error (.InvalidPriority priorityStr))
      | some prio =>
        let tags := match tags? with
          | some ts => parse_tags ts
          | none => []
        let title := match title? with
          | some ti => ti
          | none => String.intercalate " " ((base.splitOn "-").map capitalizeWord)
        let t := { Ticket.new freshId slug title now with
                   description := description?.getD "", priority := prio, tags := tags }
        let s1 := save_ticket s t
        if start then
          let t1 := ticketStart t now
          (set_active (save_ticket s1 t1) t1.id, .ok ())
        else (s1, .ok ())

/-- Storing a file leaves every other key unchanged. -/
theorem getFile_putFile_ne (fs : List (Nat × TicketFile)) (id k : Nat)
    (f : TicketFile) (h : k ≠ id) :
    getFile (putFile fs id f) k = getFile fs k := by
  induction fs with
  | nil => simp [putFile, getFile, Ne.symm h]
  | cons kv rest ih =>
    obtain ⟨k1, g⟩ := kv
    by_cases h1 : k1 = id
    · subst h1
      simp [putFile, getFile, Ne.symm h]
    · by_cases h2 : k1 = k
      · simp [putFile, getFile, h1, h2, Ne.symm h, h]
      · simp [putFile, getFile, h1, h2, ih]

/-- C4: for a stored ticket whose status allows starting (`Todo` or
`Blocked`, i.e. `can_start`), the work-on handler succeeds and saves the
ticket with status `Doing` and `started_at` stamped; for a stored ticket
whose status is `Done`, the handler returns `Ok` and leaves the storage
state exactly as it was. -/
theorem work_on_transitions (s : StorageState) (id now : Nat) (t : Ticket)
    (hload : load_ticket s id = .ok t) :
    (t.status.can_start = true →
      (handle_work_on s id now).2 = .ok () ∧
      load_ticket (handle_work_on s id now).1 t.id =
        .ok { t with status := .Doing, started_at := some now }) ∧
    (t.status = .Done → handle_work_on s id now = (s, .ok ())) := by
  constructor
  · intro hcs
    have hnd : ¬ t.status = .Done := by
      cases h : t.status <;> simp_all [Status.can_start]
    have hng : ¬ t.status = .Doing := by
      cases h : t.status <;> simp_all [Status.can_start]
    have hres : handle_work_on s id now =
        ({ save_ticket s { t with status := .Doing, started_at := some now } with
           legacyActive := some t.id }, .ok ()) := by
      simp [handle_work_on, hload, hnd, hng, save_ticket]
    refine ⟨?_, ?_⟩
    · rw [hres]
    · rw [hres]
      simp [load_ticket, save_ticket, getFile_putFile_self]
  · intro hdone
    simp [handle_work_on, hload, hdone]

/-- Witness for C4 at a concrete one-ticket store, exercising both the
`Todo` start case and the `Done` no-op case. -/
theorem work_on_transitions_witness :
    load_ticket (StorageState.mk
      [(1, .good ⟨1, "a", "A", "", .Low, .Todo, [], 0, none, none, none, [], []⟩),
       (2, .good ⟨2, "b", "B", "", .Low, .Done, [], 0, none, none, none, [], []⟩)]
      none []) 1 = .ok ⟨1, "a", "A", "", .Low, .Todo, [], 0, none, none, none, [], []⟩ ∧
    Status.can_start .Todo = true ∧
    (handle_work_on (StorageState.mk
      [(1, .good ⟨1, "a", "A", "", .Low, .Todo, [], 0, none, none, none, [], []⟩),
       (2, .good ⟨2, "b", "B", "", .Low, .Done, [], 0, none, none, none, [], []⟩)]
      none []) 1 5).2 = .ok () ∧
    load_ticket (handle_work_on (StorageState.mk
      [(1, .good ⟨1, "a", "A", "", .Low, .Todo, [], 0, none, none, none, [], []⟩),
       (2, .good ⟨2, "b", "B", "", .Low, .Done, [], 0, none, none, none, [], []⟩)]
      none []) 1 5).1 1 =
      .ok ⟨1, "a", "A", "", .Low, .Doing, [], 0, some 5, none, none, [], []⟩ := by
  have h := (work_on_transitions (StorageState.mk
      [(1, .good ⟨1, "a", "A", "", .Low, .Todo, [], 0, none, none, none, [], []⟩),
       (2, .good ⟨2, "b", "B", "", .Low, .Done, [], 0, none, none, none, [], []⟩)]
      none []) 1 5 ⟨1, "a", "A", "", .Low, .Todo, [], 0, none, none, none, [], []⟩
      (by rfl)).1 (by rfl)
  exact ⟨by rfl, by rfl, h.1, h.2⟩

/-- C5: for a stored ticket whose status is not `Done`, the finish
handler succeeds and the ticket's identifier subsequently loads a ticket
with status `Done` and a populated (`some`) `closed_at`. -/
theorem finish_marks_done (s : StorageState) (id now : Nat) (msg : String)
    (f : List TicketTask → List TicketTask) (t : Ticket)
    (hload : load_ticket s id = .ok t) (hnd : ¬ t.status = .Done) :
    (handle_finish s id now msg f).2 = .ok () ∧
    ∃ t2 : Ticket, load_ticket (handle_finish s id now msg f).1 t.id = .ok t2 ∧
      t2.status = .Done ∧ t2.closed_at = some now := by
  by_cases hc : t.tasks.any (fun tk => !tk.completed)
  · have hres : handle_finish s id now msg f =
        ({ save_ticket s
            { t with
              tasks := f t.tasks
              status := .Done
              closed_at := some now
              metadata := insertMeta t.metadata "closing_message" msg } with
           legacyActive := none }, .ok ()) := by
      simp [handle_finish, hload, hnd, hc, save_ticket]
    refine ⟨by rw [hres], ?_⟩
    refine ⟨{ t with
              tasks := f t.tasks
              status := .Done
              closed_at := some now
              metadata := insertMeta t.metadata "closing_message" msg }, ?_, rfl, rfl⟩
    rw [hres]
    simp [load_ticket, save_ticket, getFile_putFile_self]
  · have hres : handle_finish s id now msg f =
        ({ save_ticket s
            { t with
              status := .Done
              closed_at := some now
              metadata := insertMeta t.metadata "closing_message" msg } with
           legacyActive := none }, .ok ()) := by
      simp [handle_finish, hload, hnd, hc, save_ticket]
    refine ⟨by rw [hres], ?_⟩
    refine ⟨{ t with
              status := .Done
              closed_at := some now
              metadata := insertMeta t.metadata "closing_message" msg }, ?_, rfl, rfl⟩
    rw [hres]
    simp [load_ticket, save_ticket, getFile_putFile_self]

/-- Witness for C5: finishing a `Doing` ticket at a concrete store. -/
theorem finish_marks_done_witness :
    load_ticket (StorageState.mk
      [(1, .good ⟨1, "a", "A", "", .Low, .Doing, [], 0, some 2, none, none, [], []⟩)]
      (some 1) []) 1 = .ok ⟨1, "a", "A", "", .Low, .Doing, [], 0, some 2, none, none, [], []⟩ ∧
    ¬ Status.Doing = Status.Done ∧
    ((handle_finish (StorageState.mk
      [(1, .good ⟨1, "a", "A", "", .Low, .Doing, [], 0, some 2, none, none, [], []⟩)]
      (some 1) []) 1 9 "done" (fun ts => ts)).2 = .ok () ∧
    ∃ t2 : Ticket, load_ticket (handle_finish (StorageState.mk
      [(1, .good ⟨1, "a", "A", "", .Low, .Doing, [], 0, some 2, none, none, [], []⟩)]
      (some 1) []) 1 9 "done" (fun ts => ts)).1 1 = .ok t2 ∧
      t2.status = .Done ∧ t2.closed_at = some 9) :=
  ⟨by rfl, by decide,
    finish_marks_done (StorageState.mk
      [(1, .good ⟨1, "a", "A", "", .Low, .Doing, [], 0, some 2, none, none, [], []⟩)]
      (some 1) []) 1 9 "done" (fun ts => ts)
      ⟨1, "a", "A", "", .Low, .Doing, [], 0, some 2, none, none, [], []⟩
      (by rfl) (by decide)⟩

/-- C9: the finish handler applied to a stored ticket whose status is
already `Done` returns `Ok` and leaves the storage state exactly as it
was: nothing is saved, no ticket field changes, and the active-ticket
marker is untouched, so finishing twice equals finishing once. -/
theorem finish_done_noop (s : StorageState) (id now : Nat) (msg : String)
    (f : List TicketTask → List TicketTask) (t : Ticket)
    (hload : load_ticket s id = .ok t) (hdone : t.status = .Done) :
    handle_finish s id now msg f = (s, .ok ()) := by
  simp [handle_finish, hload, hdone]

/-- Witness for C9: finishing an already-finished ticket at a concrete
store whose active marker is still set. -/
theorem finish_done_noop_witness :
    load_ticket (StorageState.mk
      [(1, .good ⟨1, "a", "A", "", .Low, .Done, [], 0, some 2, some 3, none, [], []⟩)]
      (some 1) [1]) 1 = .ok ⟨1, "a", "A", "", .Low, .Done, [], 0, some 2, some 3, none, [], []⟩ ∧
    Status.Done = Status.Done ∧
    handle_finish (StorageState.mk
      [(1, .good ⟨1, "a", "A", "", .Low, .Done, [], 0, some 2, some 3, none, [], []⟩)]
      (some 1) [1]) 1 9 "again" (fun ts => ts) =
      ((StorageState.mk
        [(1, .good ⟨1, "a", "A", "", .Low, .Done, [], 0, some 2, some 3, none, [], []⟩)]
        (some 1) [1]), .ok ()) :=
  ⟨by rfl, rfl,
    finish_done_noop (StorageState.mk
      [(1, .good ⟨1, "a", "A", "", .Low, .Done, [], 0, some 2, some 3, none, [], []⟩)]
      (some 1) [1]) 1 9 "again" (fun ts => ts)
      ⟨1, "a", "A", "", .Low, .Done, [], 0, some 2, some 3, none, [], []⟩
      (by rfl) (by rfl)⟩

/-- C6: when a ticket with the slug being created (timestamp prefix plus
trimmed base slug) already exists, the new-ticket handler fails with the
duplicate-ticket error and returns the storage state unchanged, saving
nothing.  The second conjunct shows the uniqueness check lives only in
the handler: the storage layer itself accepts two tickets sharing a slug
under distinct identifiers and keeps both. -/
theorem new_duplicate_slug_rejected (s : StorageState) (slugArg stamp : String)
    (title? description? : Option String) (priorityStr : String)
    (tags? : Option String) (start : Bool) (freshId now : Nat)
    (hval : validate_slug (strTrim slugArg) = .ok ())
    (hdup : ticket_exists_with_slug s (stamp ++ "-" ++ strTrim slugArg) = true) :
    handle_new s slugArg stamp title? description? priorityStr tags? start freshId now =
      (s, .error (.DuplicateTicket (stamp ++ "-" ++ strTrim slugArg))) ∧
    ∀ t1 t2 : Ticket, t1.slug = t2.slug → t1.id ≠ t2.id →
      load_ticket (save_ticket (save_ticket s t1) t2) t2.id = .ok t2 ∧
      load_ticket (save_ticket (save_ticket s t1) t2) t1.id = .ok t1 := by
  constructor
  · simp [handle_new, hval, hdup]
  · intro t1 t2 hslug hid
    constructor
    · exact load_save_self (save_ticket s t1) t2
    · simp [load_ticket, save_ticket, getFile_putFile_ne _ _ _ _ hid,
        getFile_putFile_self]

/-- Witness for C6: creating `fix` over a store that already holds a
ticket with the combined slug, plus two concrete same-slug tickets kept
side by side by the storage layer. -/
theorem new_duplicate_slug_rejected_witness :
    validate_slug (strTrim "fix") = .ok () ∧
    ticket_exists_with_slug (StorageState.mk
      [(7, .good ⟨7, "202601011200-fix", "Fix", "", .Low, .Todo, [], 0, none, none, none, [], []⟩)]
      none []) ("202601011200" ++ "-" ++ strTrim "fix") = true ∧
    handle_new (StorageState.mk
      [(7, .good ⟨7, "202601011200-fix", "Fix", "", .Low, .Todo, [], 0, none, none, none, [], []⟩)]
      none []) "fix" "202601011200" none none "high" none false 42 9 =
      ((StorageState.mk
        [(7, .good ⟨7, "202601011200-fix", "Fix", "", .Low, .Todo, [], 0, none, none, none, [], []⟩)]
        none []), .error (.DuplicateTicket ("202601011200" ++ "-" ++ strTrim "fix"))) ∧
    load_ticket (save_ticket (save_ticket (StorageState.mk
      [(7, .good ⟨7, "202601011200-fix", "Fix", "", .Low, .Todo, [], 0, none, none, none, [], []⟩)]
      none []) ⟨3, "dup", "X", "", .Low, .Todo, [], 0, none, none, none, [], []⟩)
      ⟨4, "dup", "Y", "", .Low, .Todo, [], 0, none, none, none, [], []⟩) 3 =
      .ok ⟨3, "dup", "X", "", .Low, .Todo, [], 0, none, none, none, [], []⟩ := by
  have h := new_duplicate_slug_rejected (StorageState.mk
      [(7, .good ⟨7, "202601011200-fix", "Fix", "", .Low, .Todo, [], 0, none, none, none, [], []⟩)]
      none []) "fix" "202601011200" none none "high" none false 42 9
      (by rfl) (by rfl)
  refine ⟨by rfl, by rfl, h.1, ?_⟩
  exact (h.2 ⟨3, "dup", "X", "", .Low, .Todo, [], 0, none, none, none, [], []⟩
    ⟨4, "dup", "Y", "", .Low, .Todo, [], 0, none, none, none, [], []⟩ rfl (by decide)).2

/-- Translated from the `Display` implementation generated by the
`#[error(...)]` attributes in `src/error.rs`, for the modelled error
constructors. -/
def VibeTicketError.display : VibeTicketError → String
  | .Yaml msg => "YAML error: " ++ msg
  | .TicketNotFound id => "Ticket not found: " ++ id
  | .InvalidStatus st => "Invalid ticket status: " ++ st
  | .InvalidPriority p => "Invalid priority: " ++ p
  | .ProjectNotInitialized => "Project not initialized. Run \x27vibe-ticket init\x27 first"
  | .NoActiveTicket =>
    "No active ticket. Use \x27vibe-ticket start <id>\x27 to start working on a ticket"
  | .InvalidSlug slug =>
    "Invalid slug format: " ++ slug ++ ". Slugs must be lowercase alphanumeric with hyphens"
  | .DuplicateTicket slug => "Ticket with slug \x27" ++ slug ++ "\x27 already exists"
  | .Custom msg => msg

/-- Translated from `VibeTicketError::user_message` in `src/error.rs`:
the display string, with special cases only for the `Io` and `Git`
wrappers, which are not representable in the pure state model. -/
def VibeTicketError.user_message (e : VibeTicketError) : String :=
  e.display

/-- Translated from `VibeTicketError::suggestions` in `src/error.rs`. -/
def VibeTicketError.suggestions : VibeTicketError → List String
  | .ProjectNotInitialized =>
    ["Run \x27vibe-ticket init\x27 to initialize the project",
     "Make sure you\x27re in the correct directory"]
  | .NoActiveTicket =>
    ["Run \x27vibe-ticket list\x27 to see available tickets",
     "Run \x27vibe-ticket start <id>\x27 to start working on a ticket"]
  | .InvalidSlug _ =>
    ["Use lowercase letters, numbers, and hyphens only",
     "Example: \x27fix-login-bug\x27 or \x27feature-123\x27"]
  | .DuplicateTicket slug =>
    ["Use a different slug or check existing ticket \x27" ++ slug ++ "\x27",
     "Run \x27vibe-ticket list\x27 to see all tickets"]
  | _ => []

/-- Translated from `handle_error` in `src/main.rs`: the lines printed
for an error, namely the user-facing message followed, when there are
suggestions, by a header and one bulleted line per suggestion. -/
def handle_error_lines (e : VibeTicketError) : List String :=
  e.user_message ::
    (if e.suggestions.isEmpty then []
     else "\nSuggestions:" :: e.suggestions.map (fun sg => "  • " ++ sg))

/-- Translated from `main` in `src/main.rs`: when `run` returns `Ok`
the process exits normally (status 0, nothing printed by the error
path); when `run` returns an error, `handle_error` prints its lines and
the process exits with status 1. -/
def mainExit (r : Except VibeTicketError Unit) : Nat × List String :=
  match r with
  | .ok _ => (0, [])
  | .error e => (1, handle_error_lines e)

/-- C8: the process exits with status 0 when the dispatched handler
returns `Ok`, and with the non-zero status 1 whenever an error
propagates to `main`, in which case the user-facing message is printed
first and every suggestion is printed as a bulleted line. -/
theorem main_exit_codes :
    (mainExit (.ok ())).1 = 0 ∧
    ∀ e : VibeTicketError, (mainExit (.error e)).1 = 1 ∧
      (mainExit (.error e)).2.head? = some e.user_message ∧
      ∀ sg ∈ e.suggestions, ("  • " ++ sg) ∈ (mainExit (.error e)).2 := by
  refine ⟨rfl, ?_⟩
  intro e
  refine ⟨rfl, rfl, ?_⟩
  intro sg hsg
  have hne : e.suggestions.isEmpty = false := by
    cases h : e.suggestions with
    | nil => rw [h] at hsg; exact absurd hsg (List.not_mem_nil sg)
    | cons a l => rfl
  simp only [mainExit, handle_error_lines, hne, Bool.false_eq_true, if_false,
    List.mem_cons]
  exact Or.inr (Or.inr (List.mem_map_of_mem _ hsg))

/-- Witness for C8: the `ProjectNotInitialized` error and its first
suggestion line. -/
theorem main_exit_codes_witness :
    "Run \x27vibe-ticket init\x27 to initialize the project" ∈
      VibeTicketError.suggestions .ProjectNotInitialized ∧
    (mainExit (.error .ProjectNotInitialized)).1 = 1 ∧
    ("  • " ++ "Run \x27vibe-ticket init\x27 to initialize the project") ∈
      (mainExit (.error .ProjectNotInitialized)).2 := by
  have h := main_exit_codes.2 .ProjectNotInitialized
  exact ⟨by simp [VibeTicketError.suggestions], h.1,
    h.2.2 _ (by simp [VibeTicketError.suggestions])⟩

/-- The double-hyphen scan finds exactly the positions of two adjacent
hyphens. -/
theorem hasDoubleHyphen_iff (cs : List Char) :
    hasDoubleHyphen cs = true ↔
      ∃ i : Nat, cs.get? i = some '-' ∧ cs.get? (i + 1) = some '-' := by
  induction cs with
  | nil =>
    simp [hasDoubleHyphen]
  | cons c1 tl ih =>
    cases tl with
    | nil =>
      simp only [hasDoubleHyphen]
      constructor
      · intro h
        exact absurd h (by simp)
      · rintro ⟨i, hi1, hi2⟩
        cases i with
        | zero => simp at hi2
        | succ j => simp at hi1
    | cons c2 rest =>
      simp only [hasDoubleHyphen, Bool.or_eq_true, Bool.and_eq_true, beq_iff_eq]
      constructor
      · rintro (⟨h1, h2⟩ | h)
        · exact ⟨0, by simp [h1], by simp [h2]⟩
        · rcases ih.mp h with ⟨i, hi1, hi2⟩
          exact ⟨i + 1, by simpa using hi1, by simpa using hi2⟩
      · rintro ⟨i, hi1, hi2⟩
        cases i with
        | zero =>
          left
          simp at hi1 hi2
          exact ⟨hi1, hi2⟩
        | succ j =>
          right
          exact ih.mpr ⟨j, by simpa using hi1, by simpa using hi2⟩

/-- Unfolding of `validate_slug` at the level of its four boolean
checks. -/
theorem validate_slug_ok_iff_bool (s : String) :
    validate_slug s = .ok () ↔
      (s.toList.isEmpty = false ∧
       s.toList.all (fun c => c.isLower || c.isDigit || c == '-') = true ∧
       startsWithHyphen s.toList = false ∧
       endsWithHyphen s.toList = false ∧
       hasDoubleHyphen s.toList = false) := by
  simp only [validate_slug]
  cases h0 : s.toList.isEmpty with
  | true => simp [h0]
  | false =>
    rw [if_neg (by decide : ¬ ((false : Bool) = true))]
    cases hc : (!(s.toList.all (fun c => c.isLower || c.isDigit || c == '-')) ||
        startsWithHyphen s.toList || endsWithHyphen s.toList ||
        hasDoubleHyphen s.toList) with
    | true =>
      rw [if_pos (by rfl : ((true : Bool) = true))]
      constructor
      · intro h
        cases h
      · rintro ⟨-, h1, h2, h3, h4⟩
        rw [h1, h2, h3, h4] at hc
        simp at hc
    | false =>
      rw [if_neg (by decide : ¬ ((false : Bool) = true))]
      have hparts := hc
      rw [Bool.or_eq_false_iff, Bool.or_eq_false_iff, Bool.or_eq_false_iff,
        Bool.not_eq_false'] at hparts
      exact ⟨fun _ => ⟨rfl, hparts.1.1.1, hparts.1.1.2, hparts.1.2, hparts.2⟩,
        fun _ => rfl⟩

/-- C10: `validate_slug` succeeds exactly on the non-empty strings
whose characters are all ASCII lowercase letters, ASCII digits or
hyphens, that neither start nor end with a hyphen, and that contain no
two consecutive hyphens; every other string is rejected with the
`InvalidSlug` error. -/
theorem validate_slug_characterization (s : String) :
    (validate_slug s = .ok () ↔
      (s.toList ≠ [] ∧
       (∀ c ∈ s.toList, c.isLower = true ∨ c.isDigit = true ∨ c = '-') ∧
       s.toList.head? ≠ some '-' ∧
       s.toList.getLast? ≠ some '-' ∧
       ∀ i : Nat, ¬(s.toList.get? i = some '-' ∧ s.toList.get? (i + 1) = some '-'))) ∧
    (validate_slug s ≠ .ok () → validate_slug s = .error (.InvalidSlug s)) := by
  constructor
  · rw [validate_slug_ok_iff_bool]
    have h1 : s.toList.isEmpty = false ↔ s.toList ≠ [] := by
      cases h : s.toList <;> simp [h]
    have h2 : (s.toList.all (fun c => c.isLower || c.isDigit || c == '-') = true) ↔
        (∀ c ∈ s.toList, c.isLower = true ∨ c.isDigit = true ∨ c = '-') := by
      simp [List.all_eq_true, Bool.or_eq_true, or_assoc]
    have h3 : (startsWithHyphen s.toList = false) ↔ s.toList.head? ≠ some '-' := by
      simp [startsWithHyphen]
    have h4 : (endsWithHyphen s.toList = false) ↔ s.toList.getLast? ≠ some '-' := by
      simp [endsWithHyphen]
    have h5 : (hasDoubleHyphen s.toList = false) ↔
        (∀ i : Nat, ¬(s.toList.get? i = some '-' ∧ s.toList.get? (i + 1) = some '-')) := by
      constructor
      · intro h i hi
        have hcontra := (hasDoubleHyphen_iff s.toList).mpr ⟨i, hi.1, hi.2⟩
        rw [h] at hcontra
        cases hcontra
      · intro h
        cases hd : hasDoubleHyphen s.toList
        · rfl
        · rcases (hasDoubleHyphen_iff s.toList).mp hd with ⟨i, hi1, hi2⟩
          exact absurd ⟨hi1, hi2⟩ (h i)
    exact and_congr h1 (and_congr h2 (and_congr h3 (and_congr h4 h5)))
  · have htot : validate_slug s = .ok () ∨
        validate_slug s = .error (.InvalidSlug s) := by
      simp only [validate_slug]
      split
      · exact Or.inr rfl
      · split
        · exact Or.inr rfl
        · exact Or.inl rfl
    intro hne
    exact htot.resolve_left hne

/-- Witness for C10: the string with a double hyphen is rejected with
the `InvalidSlug` error. -/
theorem validate_slug_characterization_witness :
    validate_slug "a--b" ≠ .ok () ∧
    validate_slug "a--b" = .error (.InvalidSlug "a--b") := by
  have hne : validate_slug "a--b" ≠ .ok () := by
    rw [show validate_slug "a--b" = .error (.InvalidSlug "a--b") from rfl]
    intro h
    cases h
  exact ⟨hne, (validate_slug_characterization "a--b").2 hne⟩
